import Mathlib

/-!
Verification of the MEV Blocker client's decode pipeline and subscription
entry point.  The decoder turns a raw JSON record pushed by the MEV Blocker
feed into a typed transaction envelope paired with an asserted sender; the
subscription entry point checks pubsub capability before issuing the
`eth_subscribe` request.

The JSON/serde layer is embedded by giving every wire field a `Wire` state:
absent from the object, explicitly `null`, successfully parsed to a value
under the field's codec, or present but failing its codec (wrong JSON type,
bad hex, out-of-range quantity).  Numeric quantity codecs check the integer
width of the Rust field (`u8` for the type tag, `u64` for nonce/gas/chainId,
`u128` for the fee fields, 256 bits for `value`); a value already known to
exceed the width is reachable only through the parsed representation, so the
parse helpers re-check it.  Addresses, hashes, byte strings, access lists and
authorization lists are opaque atoms: `Wire.ok v` means the wire bytes
deserialized to `v` under that field's codec and `Wire.bad` covers every
failing presentation.
-/

namespace MevBlocker

/-- State of one field of the incoming JSON object. -/
inductive Wire (α : Type) where
  | absent : Wire α
  | null : Wire α
  | ok (v : α) : Wire α
  | bad : Wire α
deriving DecidableEq, Repr

/-- 20-byte account address, kept abstract. -/
abbrev Address := Nat

/-- 32-byte hash, kept abstract. -/
abbrev B256 := Nat

/-- Byte string (the `data` payload). -/
abbrev Bytes := List Nat

/-- One entry of an EIP-2930 access list. -/
structure AccessListItem where
  address : Address
  storage_keys : List B256
deriving DecidableEq, Repr

/-- EIP-2930 access list. -/
abbrev AccessList := List AccessListItem

/-- Element of an EIP-7702 authorization list.  Opaque here: the decoder
never constructs or inspects one (it always emits an empty list). -/
structure SignedAuthorization where
  payload : Nat
deriving DecidableEq, Repr

/-- Decode failures surfaced by the serde layer and the type-tag match:
a required field missing from the object, a present field failing its
codec, or an unrecognized transaction type tag. -/
inductive DecodeError where
  | missingField (name : String) : DecodeError
  | malformedField (name : String) : DecodeError
  | unknownTxType (tag : Nat) : DecodeError
deriving DecidableEq, Repr

/-- The wire record exactly as pushed by the feed: the thirteen keys the
Rust struct declares, plus the three type-specific keys the feed may carry
but the struct omits (serde ignores unknown keys, so they are dropped). -/
structure RawRecord where
  chainId : Wire Nat
  to_ : Wire Address
  value : Wire Nat
  data : Wire Bytes
  accessList : Wire AccessList
  nonce : Wire Nat
  gasPrice : Wire Nat
  maxPriorityFeePerGas : Wire Nat
  maxFeePerGas : Wire Nat
  gas : Wire Nat
  type : Wire Nat
  hash : Wire B256
  from_ : Wire Address
  blobVersionedHashes : Wire (List B256)
  maxFeePerBlobGas : Wire Nat
  authorizationList : Wire (List SignedAuthorization)
deriving DecidableEq, Repr

/-- Required field with no default: absent is a missing-field error, `null`
or an unparsable presentation is a malformed-field error. -/
def Wire.req {α : Type} (name : String) : Wire α → Except DecodeError α
  | .ok v => .ok v
  | .absent => .error (.missingField name)
  | .null => .error (.malformedField name)
  | .bad => .error (.malformedField name)

/-- Codec for `#[serde(default, with = "alloy_serde::quantity::opt")]` on an optional
quantity of `width` bits: absent and `null` both give `none`, a parsed
quantity must fit the width. -/
def Wire.optQ (name : String) (width : Nat) : Wire Nat → Except DecodeError (Option Nat)
  | .ok v => if v < 2 ^ width then .ok (some v) else .error (.malformedField name)
  | .absent => .ok none
  | .null => .ok none
  | .bad => .error (.malformedField name)

/-- Codec for `#[serde(with = "alloy_serde::quantity")]` on a required quantity of
`width` bits. -/
def Wire.reqQ (name : String) (width : Nat) : Wire Nat → Except DecodeError Nat
  | .ok v => if v < 2 ^ width then .ok v else .error (.malformedField name)
  | .absent => .error (.missingField name)
  | .null => .error (.malformedField name)
  | .bad => .error (.malformedField name)

/-- Codec for `#[serde(default)]` on a non-optional field: absent takes the default,
`null` or a failing presentation is an error. -/
def Wire.orDefault {α : Type} (name : String) (d : α) : Wire α → Except DecodeError α
  | .ok v => .ok v
  | .absent => .ok d
  | .null => .error (.malformedField name)
  | .bad => .error (.malformedField name)

/-- Codec for `#[serde(default)] Option<Address>`: absent and `null` both give
`none`. -/
def Wire.optA {α : Type} (name : String) : Wire α → Except DecodeError (Option α)
  | .ok v => .ok (some v)
  | .absent => .ok none
  | .null => .ok none
  | .bad => .error (.malformedField name)

/-- Codec for `#[serde(default)] value: U256`: absent defaults to zero, a parsed
quantity must fit 256 bits, `null` or a failing presentation is an error. -/
def Wire.u256Default (name : String) : Wire Nat → Except DecodeError Nat
  | .ok v => if v < 2 ^ 256 then .ok v else .error (.malformedField name)
  | .absent => .ok 0
  | .null => .error (.malformedField name)
  | .bad => .error (.malformedField name)

/-- Embeds `deserialize_data` together with `#[serde(default)]`: the `data`
field may be absent, explicitly `null`, or a hex string; the first two and
the empty string all give empty bytes. -/
def deserialize_data : Wire Bytes → Except DecodeError Bytes
  | .ok v => .ok v
  | .absent => .ok []
  | .null => .ok []
  | .bad => .error (.malformedField "data")

/-- The parsed `RawMevBlockerTx` struct, fields as declared in the source. -/
structure RawMevBlockerTx where
  chain_id : Option Nat
  to_ : Option Address
  value : Nat
  data : Bytes
  access_list : AccessList
  nonce : Nat
  gas_price : Option Nat
  max_priority_fee_per_gas : Option Nat
  max_fee_per_gas : Option Nat
  gas : Nat
  tx_type : Option Nat
  hash : B256
  from_ : Address
deriving DecidableEq, Repr

/-- serde deserialization of `RawMevBlockerTx` from the wire record: each
field is decoded under its attribute-selected codec; any field failure
aborts the whole struct; the three keys the struct does not declare are
ignored. -/
def RawMevBlockerTx.deserialize (r : RawRecord) : Except DecodeError RawMevBlockerTx := do
  let chain_id ← Wire.optQ "chainId" 64 r.chainId
  let to_ ← Wire.optA "to" r.to_
  let value ← Wire.u256Default "value" r.value
  let data ← deserialize_data r.data
  let access_list ← Wire.orDefault "accessList" [] r.accessList
  let nonce ← Wire.reqQ "nonce" 64 r.nonce
  let gas_price ← Wire.optQ "gasPrice" 128 r.gasPrice
  let max_priority_fee_per_gas ← Wire.optQ "maxPriorityFeePerGas" 128 r.maxPriorityFeePerGas
  let max_fee_per_gas ← Wire.optQ "maxFeePerGas" 128 r.maxFeePerGas
  let gas ← Wire.reqQ "gas" 64 r.gas
  let tx_type ← Wire.optQ "type" 8 r.type
  let hash ← Wire.req "hash" r.hash
  let from_ ← Wire.req "from" r.from_
  pure { chain_id, to_, value, data, access_list, nonce, gas_price,
         max_priority_fee_per_gas, max_fee_per_gas, gas, tx_type, hash, from_ }

/-- ECDSA signature shape: r, s and the y-parity bit. -/
structure Signature where
  r : Nat
  s : Nat
  y_parity : Bool
deriving DecidableEq, Repr

/-- The fixed sentinel `Signature::new(U256::ZERO, U256::ZERO, false)`. -/
def Signature.sentinel : Signature := ⟨0, 0, false⟩

/-- Recipient kind `TxKind`: contract creation or a call to an address. -/
inductive TxKind where
  | create : TxKind
  | call (addr : Address) : TxKind
deriving DecidableEq, Repr

/-- Legacy transaction body. -/
structure TxLegacy where
  chain_id : Option Nat
  nonce : Nat
  gas_price : Nat
  gas_limit : Nat
  to_ : TxKind
  value : Nat
  input : Bytes
deriving DecidableEq, Repr

/-- EIP-2930 transaction body. -/
structure TxEip2930 where
  chain_id : Nat
  nonce : Nat
  gas_price : Nat
  gas_limit : Nat
  to_ : TxKind
  value : Nat
  access_list : AccessList
  input : Bytes
deriving DecidableEq, Repr

/-- EIP-1559 transaction body. -/
structure TxEip1559 where
  chain_id : Nat
  nonce : Nat
  gas_limit : Nat
  max_fee_per_gas : Nat
  max_priority_fee_per_gas : Nat
  to_ : TxKind
  value : Nat
  access_list : AccessList
  input : Bytes
deriving DecidableEq, Repr

/-- EIP-4844 transaction body; `to` is a plain address, never creation. -/
structure TxEip4844 where
  chain_id : Nat
  nonce : Nat
  gas_limit : Nat
  max_fee_per_gas : Nat
  max_priority_fee_per_gas : Nat
  to_ : Address
  value : Nat
  access_list : AccessList
  blob_versioned_hashes : List B256
  max_fee_per_blob_gas : Nat
  input : Bytes
deriving DecidableEq, Repr

/-- EIP-7702 transaction body; `to` is a plain address, never creation. -/
structure TxEip7702 where
  chain_id : Nat
  nonce : Nat
  gas_limit : Nat
  max_fee_per_gas : Nat
  max_priority_fee_per_gas : Nat
  to_ : Address
  value : Nat
  access_list : AccessList
  authorization_list : List SignedAuthorization
  input : Bytes
deriving DecidableEq, Repr

/-- The `Signed<T>` wrapper: a body with a signature and a precomputed hash, built here
with `Signed::new_unchecked`. -/
structure Signed (T : Type) where
  tx : T
  signature : Signature
  hash : B256
deriving DecidableEq, Repr

/-- The five-variant canonical envelope (the 4844 arm always uses the
`TxEip4844Variant::TxEip4844` shape, the only one the decoder builds). -/
inductive TxEnvelope where
  | legacy (s : Signed TxLegacy) : TxEnvelope
  | eip2930 (s : Signed TxEip2930) : TxEnvelope
  | eip1559 (s : Signed TxEip1559) : TxEnvelope
  | eip4844 (s : Signed TxEip4844) : TxEnvelope
  | eip7702 (s : Signed TxEip7702) : TxEnvelope
deriving DecidableEq, Repr

/-- The `Recovered` pair: an envelope paired with a signer address. -/
structure Recovered where
  inner : TxEnvelope
  signer : Address
deriving DecidableEq, Repr

/-- Constructor `Recovered::new_unchecked`: pair envelope and sender without any
signature recovery. -/
def Recovered.new_unchecked (inner : TxEnvelope) (signer : Address) : Recovered :=
  { inner, signer }

/-- The `alloy_rpc_types_eth::Transaction` shape as populated by the decoder: the
recovered pair plus four block-context fields that are always `none` for a
pending transaction. -/
structure Transaction where
  inner : Recovered
  block_hash : Option B256
  block_number : Option Nat
  transaction_index : Option Nat
  effective_gas_price : Option Nat
deriving DecidableEq, Repr

/-- The newtype `MevBlockerTx(pub Transaction<TxEnvelope>)`. -/
structure MevBlockerTx where
  tx0 : Transaction
deriving DecidableEq, Repr

/-- The envelope-building match from `MevBlockerTx::deserialize`: one
exhaustive match on the type tag (absent defaults to `0`), each arm filling
its body from the parsed raw struct with the sentinel signature and the
feed-declared hash; any other tag is the `unknown tx type` early return. -/
def decode_envelope (raw : RawMevBlockerTx) : Except DecodeError TxEnvelope :=
  let sig := Signature.sentinel
  let tx_type := raw.tx_type.getD 0
  match tx_type with
    | 0 => Except.ok (TxEnvelope.legacy
        { tx := { chain_id := raw.chain_id
                  nonce := raw.nonce
                  gas_price := raw.gas_price.getD 0
                  gas_limit := raw.gas
                  to_ := raw.to_.elim TxKind.create TxKind.call
                  value := raw.value
                  input := raw.data }
          signature := sig
          hash := raw.hash })
    | 1 => Except.ok (TxEnvelope.eip2930
        { tx := { chain_id := raw.chain_id.getD 1
                  nonce := raw.nonce
                  gas_price := raw.gas_price.getD 0
                  gas_limit := raw.gas
                  to_ := raw.to_.elim TxKind.create TxKind.call
                  value := raw.value
                  access_list := raw.access_list
                  input := raw.data }
          signature := sig
          hash := raw.hash })
    | 2 => Except.ok (TxEnvelope.eip1559
        { tx := { chain_id := raw.chain_id.getD 1
                  nonce := raw.nonce
                  gas_limit := raw.gas
                  max_fee_per_gas := raw.max_fee_per_gas.getD 0
                  max_priority_fee_per_gas := raw.max_priority_fee_per_gas.getD 0
                  to_ := raw.to_.elim TxKind.create TxKind.call
                  value := raw.value
                  access_list := raw.access_list
                  input := raw.data }
          signature := sig
          hash := raw.hash })
    | 3 => Except.ok (TxEnvelope.eip4844
        { tx := { chain_id := raw.chain_id.getD 1
                  nonce := raw.nonce
                  gas_limit := raw.gas
                  max_fee_per_gas := raw.max_fee_per_gas.getD 0
                  max_priority_fee_per_gas := raw.max_priority_fee_per_gas.getD 0
                  to_ := raw.to_.getD 0
                  value := raw.value
                  access_list := raw.access_list
                  blob_versioned_hashes := []
                  max_fee_per_blob_gas := 0
                  input := raw.data }
          signature := sig
          hash := raw.hash })
    | 4 => Except.ok (TxEnvelope.eip7702
        { tx := { chain_id := raw.chain_id.getD 1
                  nonce := raw.nonce
                  gas_limit := raw.gas
                  max_fee_per_gas := raw.max_fee_per_gas.getD 0
                  max_priority_fee_per_gas := raw.max_priority_fee_per_gas.getD 0
                  to_ := raw.to_.getD 0
                  value := raw.value
                  access_list := raw.access_list
                  authorization_list := []
                  input := raw.data }
          signature := sig
          hash := raw.hash })
    | other => Except.error (.unknownTxType other)

/-- The decoder `MevBlockerTx::deserialize`: parse the raw struct, build the envelope
by the tag match, then pair it with the feed-asserted sender through
`Recovered::new_unchecked`; the block-context fields are all `None`. -/
def MevBlockerTx.deserialize (r : RawRecord) : Except DecodeError MevBlockerTx := do
  let raw ← RawMevBlockerTx.deserialize r
  let envelope ← decode_envelope raw
  pure ⟨{ inner := Recovered.new_unchecked envelope raw.from_
          block_hash := none
          block_number := none
          transaction_index := none
          effective_gas_price := none }⟩

/-- The envelope inside a decoded transaction. -/
def MevBlockerTx.envelope (m : MevBlockerTx) : TxEnvelope := m.tx0.inner.inner

/-- The asserted sender inside a decoded transaction. -/
def MevBlockerTx.sender (m : MevBlockerTx) : Address := m.tx0.inner.signer

/-- Numeric tag of an envelope variant. -/
def TxEnvelope.typeTag : TxEnvelope → Nat
  | .legacy _ => 0
  | .eip2930 _ => 1
  | .eip1559 _ => 2
  | .eip4844 _ => 3
  | .eip7702 _ => 4

/-- The hash stored in an envelope. -/
def TxEnvelope.txHash : TxEnvelope → B256
  | .legacy s => s.hash
  | .eip2930 s => s.hash
  | .eip1559 s => s.hash
  | .eip4844 s => s.hash
  | .eip7702 s => s.hash

/-- The signature stored in an envelope. -/
def TxEnvelope.sig : TxEnvelope → Signature
  | .legacy s => s.signature
  | .eip2930 s => s.signature
  | .eip1559 s => s.signature
  | .eip4844 s => s.signature
  | .eip7702 s => s.signature

/-- The input bytes stored in an envelope. -/
def TxEnvelope.input : TxEnvelope → Bytes
  | .legacy s => s.tx.input
  | .eip2930 s => s.tx.input
  | .eip1559 s => s.tx.input
  | .eip4844 s => s.tx.input
  | .eip7702 s => s.tx.input

/-- The chain id stored in an envelope; optional only on the legacy body. -/
def TxEnvelope.chainId? : TxEnvelope → Option Nat
  | .legacy s => s.tx.chain_id
  | .eip2930 s => some s.tx.chain_id
  | .eip1559 s => some s.tx.chain_id
  | .eip4844 s => some s.tx.chain_id
  | .eip7702 s => some s.tx.chain_id

/-- The recipient stored in an envelope: a `TxKind` on the first three
bodies, a plain address on the 4844 and 7702 bodies. -/
def TxEnvelope.recipient : TxEnvelope → Sum TxKind Address
  | .legacy s => .inl s.tx.to_
  | .eip2930 s => .inl s.tx.to_
  | .eip1559 s => .inl s.tx.to_
  | .eip4844 s => .inr s.tx.to_
  | .eip7702 s => .inr s.tx.to_

/-- A fully-present, fully-parsing wire record built from given field
values; every key, including the three the struct ignores, is present and
well-formed. -/
def allOkRecord (cid toA v : Nat) (d : Bytes) (al : AccessList)
    (n gp mpf mf g t h f : Nat) (bv : List B256) (mb : Nat)
    (au : List SignedAuthorization) : RawRecord :=
  { chainId := .ok cid, to_ := .ok toA, value := .ok v, data := .ok d,
    accessList := .ok al, nonce := .ok n, gasPrice := .ok gp,
    maxPriorityFeePerGas := .ok mpf, maxFeePerGas := .ok mf, gas := .ok g,
    type := .ok t, hash := .ok h, from_ := .ok f,
    blobVersionedHashes := .ok bv, maxFeePerBlobGas := .ok mb,
    authorizationList := .ok au }

/-! Subscription entry point, embedded as explicit state passing: the
client records whether a pubsub frontend is attached, how the transport
answers an awaited RPC call, and how a subscription id resolves to a
subscription handle.  The function result carries the list of RPC calls
actually issued, in order. -/

/-- Transport-level failures reachable from the subscribe path. -/
inductive TransportError where
  | pubsubUnavailable : TransportError
  | backend (code : Nat) : TransportError
deriving DecidableEq, Repr

/-- One RPC call as handed to the transport: method, parameters and the
`set_is_subscription` mark. -/
structure RpcCall where
  method : String
  params : List String
  is_subscription : Bool
deriving DecidableEq, Repr

/-- A registered pubsub subscription handle. -/
structure Subscription where
  id : Nat
deriving DecidableEq, Repr

/-- The injected provider/transport collaborator: pubsub frontend presence,
the transport's answer to an awaited call, and subscription registration. -/
structure Client where
  pubsub_frontend : Option Unit
  respond : RpcCall → Except TransportError Nat
  get_subscription : Nat → Except TransportError Subscription

/-- The one call the subscribe path issues:
`eth_subscribe("mevblocker_partialPendingTransactions")`, marked as a
subscribing call. -/
def mevBlockerSubscribeCall : RpcCall :=
  { method := "eth_subscribe"
    params := ["mevblocker_partialPendingTransactions"]
    is_subscription := true }

/-- The entry point `subscribe_mev_blocker_pending_transactions`: check the pubsub frontend
(failing with `pubsub_unavailable` before any request when it is missing),
then issue the subscribing call, await the id and register against it.
Returns the result together with the trace of issued calls. -/
def subscribe_mev_blocker_pending_transactions (c : Client) :
    Except TransportError Subscription × List RpcCall :=
  match c.pubsub_frontend with
  | none => (Except.error TransportError.pubsubUnavailable, [])
  | some _ =>
    match c.respond mevBlockerSubscribeCall with
    | .error e => (Except.error e, [mevBlockerSubscribeCall])
    | .ok id => (c.get_subscription id, [mevBlockerSubscribeCall])

/-- Functorial map on a wire field state. -/
def Wire.map {α β : Type} (f : α → β) : Wire α → Wire β
  | .absent => .absent
  | .null => .null
  | .ok v => .ok (f v)
  | .bad => .bad

instance {ε α : Type} [DecidableEq ε] [DecidableEq α] : DecidableEq (Except ε α)
  | .error e, .error e' =>
    if h : e = e' then isTrue (by rw [h]) else isFalse (fun hh => h (by cases hh; rfl))
  | .error _, .ok _ => isFalse (fun hh => by cases hh)
  | .ok _, .error _ => isFalse (fun hh => by cases hh)
  | .ok a, .ok a' =>
    if h : a = a' then isTrue (by rw [h]) else isFalse (fun hh => h (by cases hh; rfl))


/-- Inversion for a successful `Except` bind. -/
theorem except_bind_ok {ε α β : Type} {x : Except ε α} {f : α → Except ε β} {b : β}
    (h : x >>= f = Except.ok b) : ∃ a, x = Except.ok a ∧ f a = Except.ok b := by
  cases x with
  | error e => exact absurd h (by simp [Bind.bind, Except.bind])
  | ok a => exact ⟨a, rfl, by simpa [Bind.bind, Except.bind] using h⟩

/-- A fully-present all-parsing record deserializes to the evident raw
struct. -/
theorem raw_deserialize_allOk (cid toA v : Nat) (d : Bytes) (al : AccessList)
    (n gp mpf mf g t hsh f : Nat) (bv : List B256) (mb : Nat)
    (au : List SignedAuthorization)
    (hcid : cid < 2 ^ 64) (hv : v < 2 ^ 256) (hn : n < 2 ^ 64)
    (hgp : gp < 2 ^ 128) (hmpf : mpf < 2 ^ 128) (hmf : mf < 2 ^ 128)
    (hg : g < 2 ^ 64) (ht : t < 2 ^ 8) :
    RawMevBlockerTx.deserialize (allOkRecord cid toA v d al n gp mpf mf g t hsh f bv mb au)
      = Except.ok { chain_id := some cid, to_ := some toA, value := v, data := d,
                    access_list := al, nonce := n, gas_price := some gp,
                    max_priority_fee_per_gas := some mpf, max_fee_per_gas := some mf,
                    gas := g, tx_type := some t, hash := hsh, from_ := f } := by
  simp only [RawMevBlockerTx.deserialize, allOkRecord, Wire.optQ, Wire.optA, Wire.reqQ,
    Wire.req, Wire.orDefault, Wire.u256Default, deserialize_data]
  rw [if_pos hcid, if_pos hv, if_pos hn, if_pos hgp, if_pos hmpf, if_pos hmf,
    if_pos hg, if_pos ht]
  rfl

/-- Bind on a successful `Except` reduces. -/
theorem okBind {ε α β : Type} (a : α) (f : α → Except ε β) :
    (Except.ok a : Except ε α) >>= f = f a := rfl

/-- Bind on a failed `Except` propagates the error. -/
theorem errBind {ε α β : Type} (e : ε) (f : α → Except ε β) :
    (Except.error e : Except ε α) >>= f = Except.error e := rfl

/-- Rewriting `MevBlockerTx.deserialize` once the raw struct is known. -/
theorem deserialize_eq (r : RawRecord) {raw : RawMevBlockerTx}
    (h : RawMevBlockerTx.deserialize r = Except.ok raw) :
    MevBlockerTx.deserialize r = (decode_envelope raw).map (fun env =>
      ⟨{ inner := Recovered.new_unchecked env raw.from_
         block_hash := none
         block_number := none
         transaction_index := none
         effective_gas_price := none }⟩) := by
  simp only [MevBlockerTx.deserialize, h, okBind]
  cases hd : decode_envelope raw <;> simp [hd, okBind, errBind, Except.map]

/-- C1: decoding a fully-present well-formed record with type tag
`t ∈ {0,1,2,3,4}` succeeds, the envelope variant matches `t`, and the
sender and hash are the record's `from` and `hash` verbatim. -/
theorem decode_known_tag_matches_variant (t : Nat) (htag : t < 5)
    (cid toA v : Nat) (d : Bytes) (al : AccessList)
    (n gp mpf mf g hsh f : Nat) (bv : List B256) (mb : Nat)
    (au : List SignedAuthorization)
    (hcid : cid < 2 ^ 64) (hv : v < 2 ^ 256) (hn : n < 2 ^ 64)
    (hgp : gp < 2 ^ 128) (hmpf : mpf < 2 ^ 128) (hmf : mf < 2 ^ 128)
    (hg : g < 2 ^ 64) :
    ∃ m : MevBlockerTx,
      MevBlockerTx.deserialize (allOkRecord cid toA v d al n gp mpf mf g t hsh f bv mb au)
        = Except.ok m ∧
      m.envelope.typeTag = t ∧ m.sender = f ∧ m.envelope.txHash = hsh := by
  have hraw := raw_deserialize_allOk cid toA v d al n gp mpf mf g t hsh f bv mb au
    hcid hv hn hgp hmpf hmf hg (by omega)
  have heq := deserialize_eq _ hraw
  interval_cases t <;> rw [heq] <;> exact ⟨_, rfl, rfl, rfl, rfl⟩

/-- C1 witness: a concrete record of each of the five tags decodes to the
matching variant. -/
theorem decode_known_tag_matches_variant_witness :
    ∃ m : MevBlockerTx,
      MevBlockerTx.deserialize (allOkRecord 1 2 3 [4] [] 5 6 7 8 9 2 10 11 [] 0 [])
        = Except.ok m ∧
      m.envelope.typeTag = 2 ∧ m.sender = 11 ∧ m.envelope.txHash = 10 :=
  decode_known_tag_matches_variant 2 (by decide) 1 2 3 [4] [] 5 6 7 8 9 10 11 [] 0 []
    (by decide) (by decide) (by decide) (by decide) (by decide) (by decide) (by decide)

/-- An out-of-range tag in a successfully parsed raw struct makes the
envelope match fail with exactly that tag. -/
theorem decode_envelope_unknown {raw : RawMevBlockerTx} {t : Nat}
    (ht : raw.tx_type = some t) (h5 : 4 < t) :
    decode_envelope raw = Except.error (DecodeError.unknownTxType t) := by
  simp only [decode_envelope, ht, Option.getD_some]
  rcases t with _ | _ | _ | _ | _ | t
  · exact absurd h5 (by decide)
  · exact absurd h5 (by decide)
  · exact absurd h5 (by decide)
  · exact absurd h5 (by decide)
  · exact absurd h5 (by decide)
  · rfl

/-- C2 (amended): when the raw struct itself deserializes successfully and
carries a tag outside {0,1,2,3,4}, decoding fails with
`UnknownTransactionType` carrying that tag and yields no envelope; the tag
check runs only after the whole raw struct has deserialized. -/
theorem unknown_tag_fails_after_struct_parse {r : RawRecord}
    {raw : RawMevBlockerTx} {t : Nat}
    (h : RawMevBlockerTx.deserialize r = Except.ok raw)
    (ht : raw.tx_type = some t) (h5 : 4 < t) :
    MevBlockerTx.deserialize r = Except.error (DecodeError.unknownTxType t) := by
  rw [deserialize_eq r h, decode_envelope_unknown ht h5]
  rfl

/-- C2 witness: a concrete otherwise-well-formed record with tag 5 fails
with `UnknownTransactionType 5`. -/
theorem unknown_tag_fails_after_struct_parse_witness :
    MevBlockerTx.deserialize (allOkRecord 1 2 3 [] [] 5 6 7 8 9 5 10 11 [] 0 [])
      = Except.error (DecodeError.unknownTxType 5) :=
  unknown_tag_fails_after_struct_parse
    (r := allOkRecord 1 2 3 [] [] 5 6 7 8 9 5 10 11 [] 0 []) rfl rfl (by decide)

/-- C2 counterexample: a record with tag 5 and a missing `nonce` fails with
the missing-field error, not with `UnknownTransactionType 5` — the tag
check does not precede inspection of the other fields. -/
theorem unknown_tag_not_checked_first_counterexample :
    MevBlockerTx.deserialize
      { chainId := .absent, to_ := .absent, value := .absent, data := .absent,
        accessList := .absent, nonce := .absent, gasPrice := .absent,
        maxPriorityFeePerGas := .absent, maxFeePerGas := .absent, gas := .ok 1,
        type := .ok 5, hash := .ok 2, from_ := .ok 3,
        blobVersionedHashes := .absent, maxFeePerBlobGas := .absent,
        authorizationList := .absent }
      = Except.error (DecodeError.missingField "nonce") ∧
    DecodeError.missingField "nonce" ≠ DecodeError.unknownTxType 5 := by
  decide

/-- Field-level inversion of a successful raw-struct deserialization. -/
theorem raw_deserialize_ok_inv {r : RawRecord} {raw : RawMevBlockerTx}
    (h : RawMevBlockerTx.deserialize r = Except.ok raw) :
    Wire.optQ "chainId" 64 r.chainId = Except.ok raw.chain_id ∧
    Wire.optA "to" r.to_ = Except.ok raw.to_ ∧
    Wire.u256Default "value" r.value = Except.ok raw.value ∧
    deserialize_data r.data = Except.ok raw.data ∧
    Wire.orDefault "accessList" [] r.accessList = Except.ok raw.access_list ∧
    Wire.reqQ "nonce" 64 r.nonce = Except.ok raw.nonce ∧
    Wire.optQ "gasPrice" 128 r.gasPrice = Except.ok raw.gas_price ∧
    Wire.optQ "maxPriorityFeePerGas" 128 r.maxPriorityFeePerGas
      = Except.ok raw.max_priority_fee_per_gas ∧
    Wire.optQ "maxFeePerGas" 128 r.maxFeePerGas = Except.ok raw.max_fee_per_gas ∧
    Wire.reqQ "gas" 64 r.gas = Except.ok raw.gas ∧
    Wire.optQ "type" 8 r.type = Except.ok raw.tx_type ∧
    Wire.req "hash" r.hash = Except.ok raw.hash ∧
    Wire.req "from" r.from_ = Except.ok raw.from_ := by
  simp only [RawMevBlockerTx.deserialize] at h
  rcases except_bind_ok h with ⟨cid, hcid, h⟩
  rcases except_bind_ok h with ⟨toA, hto, h⟩
  rcases except_bind_ok h with ⟨v, hv, h⟩
  rcases except_bind_ok h with ⟨d, hd, h⟩
  rcases except_bind_ok h with ⟨al, hal, h⟩
  rcases except_bind_ok h with ⟨n, hn, h⟩
  rcases except_bind_ok h with ⟨gp, hgp, h⟩
  rcases except_bind_ok h with ⟨mpf, hmpf, h⟩
  rcases except_bind_ok h with ⟨mf, hmf, h⟩
  rcases except_bind_ok h with ⟨g, hg, h⟩
  rcases except_bind_ok h with ⟨t, ht, h⟩
  rcases except_bind_ok h with ⟨hsh, hhsh, h⟩
  rcases except_bind_ok h with ⟨f, hf, h⟩
  simp only [pure, Except.pure, Except.ok.injEq] at h
  subst h
  exact ⟨hcid, hto, hv, hd, hal, hn, hgp, hmpf, hmf, hg, ht, hhsh, hf⟩

/-- Structural inversion of a successful decode: the raw struct parsed, the
envelope match succeeded, and the result pairs that envelope with the raw
struct's sender. -/
theorem deserialize_ok_inv {r : RawRecord} {m : MevBlockerTx}
    (h : MevBlockerTx.deserialize r = Except.ok m) :
    ∃ raw env, RawMevBlockerTx.deserialize r = Except.ok raw ∧
      decode_envelope raw = Except.ok env ∧
      m = ⟨{ inner := Recovered.new_unchecked env raw.from_
             block_hash := none
             block_number := none
             transaction_index := none
             effective_gas_price := none }⟩ := by
  simp only [MevBlockerTx.deserialize] at h
  rcases except_bind_ok h with ⟨raw, hraw, h⟩
  rcases except_bind_ok h with ⟨env, henv, h⟩
  simp only [pure, Except.pure, Except.ok.injEq] at h
  exact ⟨raw, env, hraw, henv, h.symm⟩

/-- What every successfully built envelope looks like: sentinel signature,
the raw struct's hash and input, and the variant selected by the
(defaulted) tag. -/
theorem decode_envelope_ok {raw : RawMevBlockerTx} {env : TxEnvelope}
    (h : decode_envelope raw = Except.ok env) :
    env.sig = Signature.sentinel ∧ env.txHash = raw.hash ∧
    env.input = raw.data ∧ env.typeTag = raw.tx_type.getD 0 := by
  simp only [decode_envelope] at h
  rcases ht : raw.tx_type.getD 0 with _ | _ | _ | _ | _ | t <;> rw [ht] at h <;>
    simp only [Except.ok.injEq, reduceCtorEq] at h
  · subst h; exact ⟨rfl, rfl, rfl, rfl⟩
  · subst h; exact ⟨rfl, rfl, rfl, rfl⟩
  · subst h; exact ⟨rfl, rfl, rfl, rfl⟩
  · subst h; exact ⟨rfl, rfl, rfl, rfl⟩
  · subst h; exact ⟨rfl, rfl, rfl, rfl⟩

/-- C3: a record with `data` absent, `data: null` and `data: "0x"` decodes
to one and the same result, and on success that result's input bytes are
empty. -/
theorem data_absent_null_empty_agree (r : RawRecord) :
    MevBlockerTx.deserialize { r with data := Wire.absent }
      = MevBlockerTx.deserialize { r with data := Wire.null } ∧
    MevBlockerTx.deserialize { r with data := Wire.null }
      = MevBlockerTx.deserialize { r with data := Wire.ok [] } ∧
    ∀ m : MevBlockerTx,
      MevBlockerTx.deserialize { r with data := Wire.absent } = Except.ok m →
      m.envelope.input = [] := by
  refine ⟨by simp [MevBlockerTx.deserialize, RawMevBlockerTx.deserialize, deserialize_data],
    by simp [MevBlockerTx.deserialize, RawMevBlockerTx.deserialize, deserialize_data],
    fun m hm => ?_⟩
  rcases deserialize_ok_inv hm with ⟨raw, env, hraw, henv, hmeq⟩
  have hdata := (raw_deserialize_ok_inv hraw).2.2.2.1
  simp only [deserialize_data, Except.ok.injEq] at hdata
  have hinput := (decode_envelope_ok henv).2.2.1
  subst hmeq
  simpa [MevBlockerTx.envelope, Recovered.new_unchecked, hinput] using hdata.symm

/-- How the chain id of a built envelope relates to the parsed optional
chain id: passed through on legacy, defaulted to 1 elsewhere. -/
theorem decode_envelope_chainId {raw : RawMevBlockerTx} {env : TxEnvelope}
    (h : decode_envelope raw = Except.ok env) :
    (env.typeTag = 0 → env.chainId? = raw.chain_id) ∧
    (env.typeTag ≠ 0 → env.chainId? = some (raw.chain_id.getD 1)) := by
  simp only [decode_envelope] at h
  rcases ht : raw.tx_type.getD 0 with _ | _ | _ | _ | _ | t <;> rw [ht] at h <;>
    simp only [Except.ok.injEq, reduceCtorEq] at h
  · subst h; exact ⟨fun _ => rfl, fun hne => absurd rfl hne⟩
  · subst h; exact ⟨fun h0 => by simp [TxEnvelope.typeTag] at h0, fun _ => rfl⟩
  · subst h; exact ⟨fun h0 => by simp [TxEnvelope.typeTag] at h0, fun _ => rfl⟩
  · subst h; exact ⟨fun h0 => by simp [TxEnvelope.typeTag] at h0, fun _ => rfl⟩
  · subst h; exact ⟨fun h0 => by simp [TxEnvelope.typeTag] at h0, fun _ => rfl⟩

/-- C4 (amended): a non-legacy record with no `chainId` decodes with chain
id 1; a legacy record's chain id is `None` exactly when `chainId` is absent
or explicitly `null`. -/
theorem chain_id_default_policy {r : RawRecord} {m : MevBlockerTx}
    (h : MevBlockerTx.deserialize r = Except.ok m) :
    (m.envelope.typeTag ≠ 0 → r.chainId = Wire.absent →
      m.envelope.chainId? = some 1) ∧
    (m.envelope.typeTag = 0 →
      (m.envelope.chainId? = none ↔
        r.chainId = Wire.absent ∨ r.chainId = Wire.null)) := by
  rcases deserialize_ok_inv h with ⟨raw, env, hraw, henv, hm⟩
  have hc := (raw_deserialize_ok_inv hraw).1
  have hch := decode_envelope_chainId henv
  subst hm
  simp only [MevBlockerTx.envelope, Recovered.new_unchecked]
  constructor
  · intro hne habs
    rw [habs] at hc
    simp only [Wire.optQ, Except.ok.injEq] at hc
    rw [hch.2 hne, ← hc]
    simp
  · intro h0
    rw [hch.1 h0]
    rcases hrc : r.chainId with _ | _ | v | _ <;> rw [hrc] at hc
    · simp only [Wire.optQ, Except.ok.injEq] at hc
      simp [← hc]
    · simp only [Wire.optQ, Except.ok.injEq] at hc
      simp [← hc]
    · simp only [Wire.optQ] at hc
      split at hc
      · simp only [Except.ok.injEq] at hc
        simp [← hc]
      · exact absurd hc (by simp)
    · exact absurd hc (by simp [Wire.optQ])

/-- C4 witness: a concrete EIP-1559 record without `chainId` decodes with
chain id 1. -/
theorem chain_id_default_policy_witness :
    (⟨{ inner := Recovered.new_unchecked (TxEnvelope.eip1559
          { tx := { chain_id := 1, nonce := 1, gas_limit := 2,
                    max_fee_per_gas := 8, max_priority_fee_per_gas := 7,
                    to_ := TxKind.call 5, value := 6, access_list := [],
                    input := [] },
            signature := Signature.sentinel, hash := 3 }) 4,
        block_hash := none, block_number := none, transaction_index := none,
        effective_gas_price := none }⟩ : MevBlockerTx).envelope.chainId?
      = some 1 :=
  (chain_id_default_policy
    (r := { chainId := .absent, to_ := .ok 5, value := .ok 6, data := .absent,
            accessList := .absent, nonce := .ok 1, gasPrice := .absent,
            maxPriorityFeePerGas := .ok 7, maxFeePerGas := .ok 8,
            gas := .ok 2, type := .ok 2, hash := .ok 3, from_ := .ok 4,
            blobVersionedHashes := .absent, maxFeePerBlobGas := .absent,
            authorizationList := .absent }) rfl).1 (by decide) rfl

/-- C4 counterexample: a legacy record whose `chainId` key is present as an
explicit `null` still decodes with chain id `None`, so a `None` chain id
does not certify that `chainId` was absent from the record. -/
theorem legacy_null_chain_id_counterexample :
    MevBlockerTx.deserialize
      { chainId := .null, to_ := .absent, value := .absent, data := .absent,
        accessList := .absent, nonce := .ok 1, gasPrice := .absent,
        maxPriorityFeePerGas := .absent, maxFeePerGas := .absent,
        gas := .ok 2, type := .absent, hash := .ok 3, from_ := .ok 4,
        blobVersionedHashes := .absent, maxFeePerBlobGas := .absent,
        authorizationList := .absent }
      = Except.ok
          ⟨{ inner := Recovered.new_unchecked
                        (TxEnvelope.legacy
                          { tx := { chain_id := none, nonce := 1,
                                    gas_price := 0, gas_limit := 2,
                                    to_ := TxKind.create, value := 0,
                                    input := [] },
                            signature := Signature.sentinel, hash := 3 }) 4,
             block_hash := none, block_number := none,
             transaction_index := none, effective_gas_price := none }⟩ ∧
    (Wire.null : Wire Nat) ≠ Wire.absent :=
  ⟨rfl, by decide⟩

/-- How the recipient of a built envelope relates to the parsed optional
`to`: `map_or(Create, Call)` on the first three variants,
`unwrap_or_default()` (the zero address) on the 4844 and 7702 variants. -/
theorem decode_envelope_recipient {raw : RawMevBlockerTx} {env : TxEnvelope}
    (h : decode_envelope raw = Except.ok env) :
    (env.typeTag ≤ 2 →
      env.recipient = Sum.inl (raw.to_.elim TxKind.create TxKind.call)) ∧
    (3 ≤ env.typeTag → env.recipient = Sum.inr (raw.to_.getD 0)) := by
  simp only [decode_envelope] at h
  rcases ht : raw.tx_type.getD 0 with _ | _ | _ | _ | _ | t <;> rw [ht] at h <;>
    simp only [Except.ok.injEq, reduceCtorEq] at h
  · subst h; exact ⟨fun _ => rfl, fun h3 => by simp [TxEnvelope.typeTag] at h3⟩
  · subst h; exact ⟨fun _ => rfl, fun h3 => by simp [TxEnvelope.typeTag] at h3⟩
  · subst h; exact ⟨fun _ => rfl, fun h3 => by simp [TxEnvelope.typeTag] at h3⟩
  · subst h; exact ⟨fun h2 => by simp [TxEnvelope.typeTag] at h2, fun _ => rfl⟩
  · subst h; exact ⟨fun h2 => by simp [TxEnvelope.typeTag] at h2, fun _ => rfl⟩

/-- C5 (amended): with `to` absent, variants 0-2 decode to the
contract-creation recipient, distinct from a call to the zero address,
while variants 3 and 4 decode to the plain zero address (their bodies
cannot express creation, and absence is indistinguishable from an explicit
zero address). -/
theorem absent_to_recipient_policy {r : RawRecord} {m : MevBlockerTx}
    (h : MevBlockerTx.deserialize r = Except.ok m)
    (habs : r.to_ = Wire.absent) :
    (m.envelope.typeTag ≤ 2 →
      m.envelope.recipient = Sum.inl TxKind.create ∧
      m.envelope.recipient ≠ Sum.inl (TxKind.call 0)) ∧
    (3 ≤ m.envelope.typeTag → m.envelope.recipient = Sum.inr 0) := by
  rcases deserialize_ok_inv h with ⟨raw, env, hraw, henv, hm⟩
  have hto := (raw_deserialize_ok_inv hraw).2.1
  rw [habs] at hto
  simp only [Wire.optA, Except.ok.injEq] at hto
  have hrec := decode_envelope_recipient henv
  subst hm
  simp only [MevBlockerTx.envelope, Recovered.new_unchecked]
  constructor
  · intro h2
    rw [hrec.1 h2, ← hto]
    exact ⟨rfl, by simp⟩
  · intro h3
    rw [hrec.2 h3, ← hto]
    simp

/-- C5 witness: a legacy record without `to` decodes to the
contract-creation recipient. -/
theorem absent_to_recipient_policy_witness :
    ((⟨{ inner := Recovered.new_unchecked
           (TxEnvelope.legacy
             { tx := { chain_id := none, nonce := 1, gas_price := 0,
                       gas_limit := 2, to_ := TxKind.create, value := 0,
                       input := [] },
               signature := Signature.sentinel, hash := 3 }) 4,
         block_hash := none, block_number := none,
         transaction_index := none, effective_gas_price := none }⟩
      : MevBlockerTx).envelope.recipient = Sum.inl TxKind.create ∧
     (⟨{ inner := Recovered.new_unchecked
           (TxEnvelope.legacy
             { tx := { chain_id := none, nonce := 1, gas_price := 0,
                       gas_limit := 2, to_ := TxKind.create, value := 0,
                       input := [] },
               signature := Signature.sentinel, hash := 3 }) 4,
         block_hash := none, block_number := none,
         transaction_index := none, effective_gas_price := none }⟩
      : MevBlockerTx).envelope.recipient ≠ Sum.inl (TxKind.call 0)) :=
  (absent_to_recipient_policy
    (r := { chainId := .absent, to_ := .absent, value := .absent,
            data := .absent, accessList := .absent, nonce := .ok 1,
            gasPrice := .absent, maxPriorityFeePerGas := .absent,
            maxFeePerGas := .absent, gas := .ok 2, type := .absent,
            hash := .ok 3, from_ := .ok 4, blobVersionedHashes := .absent,
            maxFeePerBlobGas := .absent, authorizationList := .absent })
    rfl rfl).1 (by decide)

/-- C5 counterexample: for a tag-3 record, `to` absent and `to` equal to
the explicit zero address decode to the very same transaction, so the two
are not represented distinctly. -/
theorem blob_absent_to_equals_zero_counterexample :
    MevBlockerTx.deserialize
      { chainId := .absent, to_ := .absent, value := .absent, data := .absent,
        accessList := .absent, nonce := .ok 1, gasPrice := .absent,
        maxPriorityFeePerGas := .absent, maxFeePerGas := .absent,
        gas := .ok 2, type := .ok 3, hash := .ok 3, from_ := .ok 4,
        blobVersionedHashes := .absent, maxFeePerBlobGas := .absent,
        authorizationList := .absent }
      = MevBlockerTx.deserialize
      { chainId := .absent, to_ := .ok 0, value := .absent, data := .absent,
        accessList := .absent, nonce := .ok 1, gasPrice := .absent,
        maxPriorityFeePerGas := .absent, maxFeePerGas := .absent,
        gas := .ok 2, type := .ok 3, hash := .ok 3, from_ := .ok 4,
        blobVersionedHashes := .absent, maxFeePerBlobGas := .absent,
        authorizationList := .absent } ∧
    (Wire.absent : Wire Address) ≠ Wire.ok 0 :=
  ⟨rfl, by decide⟩

/-- C6: every successfully decoded transaction carries the fixed sentinel
signature and a sender read verbatim from the record's `from` field. -/
theorem decoded_signature_sentinel_sender_from {r : RawRecord}
    {m : MevBlockerTx} (h : MevBlockerTx.deserialize r = Except.ok m) :
    m.envelope.sig = Signature.sentinel ∧ r.from_ = Wire.ok m.sender := by
  rcases deserialize_ok_inv h with ⟨raw, env, hraw, henv, hm⟩
  have hs := (decode_envelope_ok henv).1
  have hf := (raw_deserialize_ok_inv hraw).2.2.2.2.2.2.2.2.2.2.2.2
  subst hm
  simp only [MevBlockerTx.envelope, MevBlockerTx.sender, Recovered.new_unchecked]
  refine ⟨hs, ?_⟩
  rcases hfr : r.from_ with _ | _ | v | _ <;> rw [hfr] at hf <;>
    simp only [Wire.req, Except.ok.injEq, reduceCtorEq] at hf
  exact congrArg Wire.ok hf

/-- C6 witness: a concrete tag-1 record decodes with the sentinel
signature and its own `from` as sender. -/
theorem decoded_signature_sentinel_sender_from_witness :
    (⟨{ inner := Recovered.new_unchecked
          (TxEnvelope.eip2930
            { tx := { chain_id := 1, nonce := 5, gas_price := 6,
                      gas_limit := 9, to_ := TxKind.call 2, value := 3,
                      access_list := [], input := [4] },
              signature := Signature.sentinel, hash := 10 }) 11,
        block_hash := none, block_number := none,
        transaction_index := none, effective_gas_price := none }⟩
      : MevBlockerTx).envelope.sig = Signature.sentinel ∧
    (allOkRecord 1 2 3 [4] [] 5 6 7 8 9 1 10 11 [] 0 []).from_ = Wire.ok 11 :=
  decoded_signature_sentinel_sender_from
    (r := allOkRecord 1 2 3 [4] [] 5 6 7 8 9 1 10 11 [] 0 []) rfl

/-- C3 witness: on a concrete record the three `data` presentations agree
and the decoded input is empty. -/
theorem data_absent_null_empty_agree_witness :
    MevBlockerTx.deserialize
        { allOkRecord 1 2 3 [4] [] 5 6 7 8 9 0 10 11 [] 0 [] with
          data := Wire.absent }
      = MevBlockerTx.deserialize
        { allOkRecord 1 2 3 [4] [] 5 6 7 8 9 0 10 11 [] 0 [] with
          data := Wire.null } ∧
    MevBlockerTx.deserialize
        { allOkRecord 1 2 3 [4] [] 5 6 7 8 9 0 10 11 [] 0 [] with
          data := Wire.null }
      = MevBlockerTx.deserialize
        { allOkRecord 1 2 3 [4] [] 5 6 7 8 9 0 10 11 [] 0 [] with
          data := Wire.ok [] } ∧
    (⟨{ inner := Recovered.new_unchecked
          (TxEnvelope.legacy
            { tx := { chain_id := some 1, nonce := 5, gas_price := 6,
                      gas_limit := 9, to_ := TxKind.call 2, value := 3,
                      input := [] },
              signature := Signature.sentinel, hash := 10 }) 11,
        block_hash := none, block_number := none,
        transaction_index := none, effective_gas_price := none }⟩
      : MevBlockerTx).envelope.input = [] :=
  have h := data_absent_null_empty_agree
    (allOkRecord 1 2 3 [4] [] 5 6 7 8 9 0 10 11 [] 0 [])
  ⟨h.1, h.2.1, h.2.2 _ rfl⟩

/-- The eip4844 and eip7702 arms hard-code empty blob hashes, zero blob gas
fee and an empty authorization list, and tags 3 and 4 land in exactly
those arms. -/
theorem decode_envelope_blob_defaults {raw : RawMevBlockerTx}
    {env : TxEnvelope} (h : decode_envelope raw = Except.ok env) :
    (∀ s, env = TxEnvelope.eip4844 s →
      s.tx.blob_versioned_hashes = [] ∧ s.tx.max_fee_per_blob_gas = 0) ∧
    (∀ s, env = TxEnvelope.eip7702 s → s.tx.authorization_list = []) ∧
    (raw.tx_type = some 3 → ∃ s, env = TxEnvelope.eip4844 s) ∧
    (raw.tx_type = some 4 → ∃ s, env = TxEnvelope.eip7702 s) := by
  simp only [decode_envelope] at h
  rcases ht : raw.tx_type.getD 0 with _ | _ | _ | _ | _ | t <;> rw [ht] at h <;>
    simp only [Except.ok.injEq, reduceCtorEq] at h
  all_goals subst h
  · exact ⟨fun s hs => (by cases hs), fun s hs => (by cases hs),
      fun h3 => (by rw [h3] at ht; simp at ht),
      fun h4 => (by rw [h4] at ht; simp at ht)⟩
  · exact ⟨fun s hs => (by cases hs), fun s hs => (by cases hs),
      fun h3 => (by rw [h3] at ht; simp at ht),
      fun h4 => (by rw [h4] at ht; simp at ht)⟩
  · exact ⟨fun s hs => (by cases hs), fun s hs => (by cases hs),
      fun h3 => (by rw [h3] at ht; simp at ht),
      fun h4 => (by rw [h4] at ht; simp at ht)⟩
  · exact ⟨fun s hs => (by cases hs; exact ⟨rfl, rfl⟩), fun s hs => (by cases hs),
      fun _ => ⟨_, rfl⟩,
      fun h4 => (by rw [h4] at ht; simp at ht)⟩
  · exact ⟨fun s hs => (by cases hs), fun s hs => (by cases hs; exact rfl),
      fun h3 => (by rw [h3] at ht; simp at ht),
      fun _ => ⟨_, rfl⟩⟩

/-- C7: a tag-3 record without the blob keys decodes to a Blob envelope
with an empty versioned-hash list and zero max-fee-per-blob-gas; a tag-4
record without `authorizationList` decodes to a SetCode envelope with an
empty authorization list. -/
theorem blob_and_auth_fields_default {r : RawRecord} {m : MevBlockerTx}
    (h : MevBlockerTx.deserialize r = Except.ok m) :
    (r.type = Wire.ok 3 → r.blobVersionedHashes = Wire.absent →
      r.maxFeePerBlobGas = Wire.absent →
      ∃ s, m.envelope = TxEnvelope.eip4844 s ∧
        s.tx.blob_versioned_hashes = [] ∧ s.tx.max_fee_per_blob_gas = 0) ∧
    (r.type = Wire.ok 4 → r.authorizationList = Wire.absent →
      ∃ s, m.envelope = TxEnvelope.eip7702 s ∧
        s.tx.authorization_list = []) := by
  rcases deserialize_ok_inv h with ⟨raw, env, hraw, henv, hm⟩
  have hty := (raw_deserialize_ok_inv hraw).2.2.2.2.2.2.2.2.2.2.1
  have hb := decode_envelope_blob_defaults henv
  subst hm
  simp only [MevBlockerTx.envelope, Recovered.new_unchecked]
  constructor
  · intro h3 _ _
    rw [h3] at hty
    simp [Wire.optQ] at hty
    rcases hb.2.2.1 hty.symm with ⟨s, hs⟩
    exact ⟨s, hs, (hb.1 s hs).1, (hb.1 s hs).2⟩
  · intro h4 _
    rw [h4] at hty
    simp [Wire.optQ] at hty
    rcases hb.2.2.2 hty.symm with ⟨s, hs⟩
    exact ⟨s, hs, hb.2.1 s hs⟩

/-- C7 witness: a concrete tag-3 record with no blob keys decodes to a Blob
envelope with the defaults. -/
theorem blob_and_auth_fields_default_witness :
    ∃ s, (⟨{ inner := Recovered.new_unchecked
               (TxEnvelope.eip4844
                 { tx := { chain_id := 1, nonce := 1, gas_limit := 2,
                           max_fee_per_gas := 0,
                           max_priority_fee_per_gas := 0, to_ := 0,
                           value := 0, access_list := [],
                           blob_versioned_hashes := [],
                           max_fee_per_blob_gas := 0, input := [] },
                   signature := Signature.sentinel, hash := 3 }) 4,
             block_hash := none, block_number := none,
             transaction_index := none, effective_gas_price := none }⟩
          : MevBlockerTx).envelope = TxEnvelope.eip4844 s ∧
      s.tx.blob_versioned_hashes = [] ∧ s.tx.max_fee_per_blob_gas = 0 :=
  (blob_and_auth_fields_default
    (r := { chainId := .absent, to_ := .absent, value := .absent,
            data := .absent, accessList := .absent, nonce := .ok 1,
            gasPrice := .absent, maxPriorityFeePerGas := .absent,
            maxFeePerGas := .absent, gas := .ok 2, type := .ok 3,
            hash := .ok 3, from_ := .ok 4, blobVersionedHashes := .absent,
            maxFeePerBlobGas := .absent, authorizationList := .absent })
    rfl).1 rfl rfl rfl

/-- C10: the decoder never reads the three ignored wire keys — overriding
them changes nothing — and every Blob/SetCode envelope it produces carries
the hard-coded empty/zero values for them. -/
theorem ignored_wire_fields_no_influence (r : RawRecord)
    (b : Wire (List B256)) (mfb : Wire Nat)
    (a : Wire (List SignedAuthorization)) :
    MevBlockerTx.deserialize
        { r with blobVersionedHashes := b, maxFeePerBlobGas := mfb,
                 authorizationList := a }
      = MevBlockerTx.deserialize r ∧
    ∀ m : MevBlockerTx, MevBlockerTx.deserialize r = Except.ok m →
      (∀ s, m.envelope = TxEnvelope.eip4844 s →
        s.tx.blob_versioned_hashes = [] ∧ s.tx.max_fee_per_blob_gas = 0) ∧
      (∀ s, m.envelope = TxEnvelope.eip7702 s →
        s.tx.authorization_list = []) := by
  constructor
  · simp [MevBlockerTx.deserialize, RawMevBlockerTx.deserialize]
  · intro m hm
    rcases deserialize_ok_inv hm with ⟨raw, env, hraw, henv, hmeq⟩
    have hb := decode_envelope_blob_defaults henv
    subst hmeq
    simp only [MevBlockerTx.envelope, Recovered.new_unchecked]
    exact ⟨hb.1, hb.2.1⟩

/-- C10 witness: overriding the three ignored keys on a concrete tag-3
record leaves the decode unchanged, and the produced blob fields are the
hard-coded defaults. -/
theorem ignored_wire_fields_no_influence_witness :
    MevBlockerTx.deserialize
        { allOkRecord 1 2 3 [4] [] 5 6 7 8 9 3 10 11 [] 0 [] with
          blobVersionedHashes := Wire.ok [7], maxFeePerBlobGas := Wire.ok 8,
          authorizationList := Wire.ok [⟨9⟩] }
      = MevBlockerTx.deserialize (allOkRecord 1 2 3 [4] [] 5 6 7 8 9 3 10 11 [] 0 []) ∧
    (({ tx := { chain_id := 1, nonce := 5, gas_limit := 9,
                max_fee_per_gas := 8, max_priority_fee_per_gas := 7,
                to_ := 2, value := 3, access_list := [],
                blob_versioned_hashes := [], max_fee_per_blob_gas := 0,
                input := [4] },
        signature := Signature.sentinel, hash := 10 } : Signed TxEip4844)
      ).tx.blob_versioned_hashes = [] ∧
    (({ tx := { chain_id := 1, nonce := 5, gas_limit := 9,
                max_fee_per_gas := 8, max_priority_fee_per_gas := 7,
                to_ := 2, value := 3, access_list := [],
                blob_versioned_hashes := [], max_fee_per_blob_gas := 0,
                input := [4] },
        signature := Signature.sentinel, hash := 10 } : Signed TxEip4844)
      ).tx.max_fee_per_blob_gas = 0 :=
  have h := ignored_wire_fields_no_influence
    (allOkRecord 1 2 3 [4] [] 5 6 7 8 9 3 10 11 [] 0 [])
    (Wire.ok [7]) (Wire.ok 8) (Wire.ok [⟨9⟩])
  ⟨h.1, ((h.2 _ rfl).1 _ rfl).1, ((h.2 _ rfl).1 _ rfl).2⟩

/-- C8: with no pubsub frontend the subscribe entry point fails with
`pubsubUnavailable` before issuing any request; the `eth_subscribe`
request is issued exactly when the pubsub capability check succeeds. -/
theorem subscribe_requires_pubsub (c : Client) :
    (c.pubsub_frontend = none →
      subscribe_mev_blocker_pending_transactions c
        = (Except.error TransportError.pubsubUnavailable, [])) ∧
    ((subscribe_mev_blocker_pending_transactions c).2 ≠ [] →
      c.pubsub_frontend ≠ none) ∧
    (c.pubsub_frontend ≠ none →
      (subscribe_mev_blocker_pending_transactions c).2
        = [mevBlockerSubscribeCall]) := by
  rcases hc : c.pubsub_frontend with _ | u
  · exact ⟨fun _ => by simp [subscribe_mev_blocker_pending_transactions, hc],
      fun hne => absurd
        (by simp [subscribe_mev_blocker_pending_transactions, hc]) hne,
      fun hne => absurd rfl hne⟩
  · refine ⟨fun h0 => by simp [hc] at h0, fun _ => by simp [hc], fun _ => ?_⟩
    cases hr : c.respond mevBlockerSubscribeCall <;>
      simp [subscribe_mev_blocker_pending_transactions, hc, hr]

/-- C8 witness: a concrete client without a pubsub frontend fails with
`pubsubUnavailable` and issues no request. -/
theorem subscribe_requires_pubsub_witness :
    subscribe_mev_blocker_pending_transactions
        { pubsub_frontend := none,
          respond := fun _ => Except.error (TransportError.backend 0),
          get_subscription := fun i => Except.ok ⟨i⟩ }
      = (Except.error TransportError.pubsubUnavailable, []) :=
  (subscribe_requires_pubsub
    { pubsub_frontend := none,
      respond := fun _ => Except.error (TransportError.backend 0),
      get_subscription := fun i => Except.ok ⟨i⟩ }).1 rfl

end MevBlocker
